import Mathlib

/-
Verification development for the CEO/Quality-Control agent
(src/ceo-quality-control-agent.py).

The Python source is shallowly embedded: Python `str` values are modelled
as `List Char` (wrapped in `String` at structure boundaries), floats that
carry quality scores as `Rat` (the scores are produced by exact decimal
literals and divisions, so `Rat` reproduces the intended arithmetic),
mutation as explicit state passing, and a raised exception as `Except`.
The `re` module patterns used by the source are embedded through a small
token matcher (`Tok`, `matchToks`) that reproduces Python's greedy
backtracking search for exactly the pattern shapes the source uses
(literals, character classes, `*`, `+`, word boundaries).  `IGNORECASE`
patterns are modelled by lowercasing both the subject and the pattern.
-/

/-! ## String and regex primitives -/

/-- Python whitespace (`str.isspace` / regex class for the ASCII range). -/
def isWs (c : Char) : Bool :=
  c = ' ' || c = '\t' || c = '\n' || c = '\r' || c = '\x0b' || c = '\x0c'

/-- Regex word character class for the ASCII range. -/
def isWordChar (c : Char) : Bool := c.isAlphanum || c = '_'

/-- The apostrophe character (spelled by code to keep source text plain). -/
def apos : Char := Char.ofNat 39

/-- Lowercase a character list, modelling Python `str.lower` on ASCII text. -/
def toLowerL (s : List Char) : List Char := s.map Char.toLower

/-- Python substring test: `needle in hay`. -/
def pyIn (needle : List Char) : List Char → Bool
  | [] => needle.isPrefixOf []
  | c :: cs => needle.isPrefixOf (c :: cs) || pyIn needle cs

/-- Python `str.split(chr(10))`: split into lines at newline characters. -/
def splitNl : List Char → List (List Char)
  | [] => [[]]
  | c :: cs =>
      let r := splitNl cs
      if c = '\n' then [] :: r
      else
        match r with
        | [] => [[c]]
        | h :: t => (c :: h) :: t

/-- Python `chr(10).join(lines)`. -/
def joinNl : List (List Char) → List Char
  | [] => []
  | [l] => l
  | l :: ls => l ++ '\n' :: joinNl ls

/-- Python `len(line) - len(line.lstrip())`: size of the leading whitespace. -/
def leadingWsCount (l : List Char) : Nat := (l.takeWhile isWs).length

/-- Python `line.strip()` is nonempty (the line holds a non-space character). -/
def hasNonWs (l : List Char) : Bool := l.any (fun c => !(isWs c))

/-- Number of words of Python `str.split()`: maximal nonempty runs of
non-whitespace characters. -/
def countWordsAux : List Char → Bool → Nat
  | [], _ => 0
  | c :: cs, inWord =>
      if isWs c then countWordsAux cs false
      else (if inWord then 0 else 1) + countWordsAux cs true

def countWords (s : List Char) : Nat := countWordsAux s false

/-- One token of the embedded regex sublanguage: a literal character, a
single character of a class, a greedy `*` or `+` over a class, or a word
boundary assertion. -/
inductive Tok where
  | lit : Char → Tok
  | cls : (Char → Bool) → Tok
  | star : (Char → Bool) → Tok
  | plus : (Char → Bool) → Tok
  | wb : Tok

/-- Match a token list at the head of `s` (with `prev` the character just
before `s`, for word boundaries), returning the number of characters a
Python-style greedy backtracking match consumes.  Every recursive call
decreases the pair (subject length, token-list length) lexicographically,
so a fuel of `(s.length + 1) * (ts.length + 1)` can never run out (token
lists never grow: `plus` steps to a same-length `star` form). -/
def matchToksF : Nat → List Tok → List Char → Option Char → Option Nat
  | 0, _, _, _ => none
  | _ + 1, [], _, _ => some 0
  | _ + 1, .lit _ :: _, [], _ => none
  | fuel + 1, .lit c :: ts, x :: xs, _ =>
      if x = c then (matchToksF fuel ts xs (some x)).map (· + 1) else none
  | _ + 1, .cls _ :: _, [], _ => none
  | fuel + 1, .cls p :: ts, x :: xs, _ =>
      if p x then (matchToksF fuel ts xs (some x)).map (· + 1) else none
  | fuel + 1, .wb :: ts, s, prev =>
      let b1 := match prev with | some c => isWordChar c | none => false
      let b2 := match s with | x :: _ => isWordChar x | [] => false
      if b1 != b2 then matchToksF fuel ts s prev else none
  | fuel + 1, .star _ :: ts, [], prev => matchToksF fuel ts [] prev
  | fuel + 1, .star p :: ts, x :: xs, prev =>
      if p x then
        match matchToksF fuel (.star p :: ts) xs (some x) with
        | some n => some (n + 1)
        | none => matchToksF fuel ts (x :: xs) prev
      else matchToksF fuel ts (x :: xs) prev
  | _ + 1, .plus _ :: _, [], _ => none
  | fuel + 1, .plus p :: ts, x :: xs, _ =>
      if p x then (matchToksF fuel (.star p :: ts) xs (some x)).map (· + 1) else none

def matchToks (ts : List Tok) (s : List Char) (prev : Option Char) : Option Nat :=
  matchToksF ((s.length + 1) * (ts.length + 1)) ts s prev

/-- `re.search` at any position of the suffix, threading the previous
character for word boundaries. -/
def searchToks (ts : List Tok) : List Char → Option Char → Bool
  | [], prev => (matchToks ts [] prev).isSome
  | x :: xs, prev => (matchToks ts (x :: xs) prev).isSome || searchToks ts xs (some x)

/-- `re.search(pattern, s)` as a Bool. -/
def reSearch (ts : List Tok) (s : List Char) : Bool := searchToks ts s none

/-- `re.match(pattern, s)`: anchored at the start. -/
def reMatchStart (ts : List Tok) (s : List Char) : Bool :=
  (matchToks ts s none).isSome

/-- Count of `re.findall` matches: leftmost match, then continue right
after its end.  None of the patterns the source counts can match the empty
string; the `some 0` branch mirrors Python's advance-by-one for zero-width
matches only for totality.  Fuel `s.length + 1` suffices: every recursive
call strictly shortens the subject. -/
def countToksGo (ts : List Tok) : Nat → List Char → Option Char → Nat
  | 0, _, _ => 0
  | _ + 1, [], prev => if (matchToks ts [] prev).isSome then 1 else 0
  | fuel + 1, x :: xs, prev =>
      match matchToks ts (x :: xs) prev with
      | none => countToksGo ts fuel xs (some x)
      | some 0 => 1 + countToksGo ts fuel xs (some x)
      | some (n + 1) => 1 + countToksGo ts fuel (xs.drop n) (((x :: xs).take (n + 1)).getLast?)

/-- Number of `re.findall(pattern, s)` matches. -/
def countRe (ts : List Tok) (s : List Char) : Nat := countToksGo ts (s.length + 1) s none

/-- Literal token run for a plain string fragment of a pattern. -/
def lits (s : String) : List Tok := s.data.map Tok.lit

def ws0 : Tok := Tok.star isWs
def ws1 : Tok := Tok.plus isWs
def wd1 : Tok := Tok.plus isWordChar

/-- Regex `.` outside DOTALL mode: any character except a newline. -/
def anyNoNl : Char → Bool := fun c => c ≠ '\n'

/-- Regex `.` under DOTALL: any character. -/
def anyCh : Char → Bool := fun _ => true

/-- A word-bounded keyword pattern such as the source's complexity
patterns written with both boundaries explicit. -/
def wordPat (s : String) : List Tok := Tok.wb :: lits s ++ [Tok.wb]

/-! ## Data model (Issue & Metrics Model) -/

/-- Quality standards for different work types (`QualityStandard`). -/
inductive QualityStandard where
  | excellent
  | good
  | acceptable
  | needs_improvement
  | unacceptable
deriving DecidableEq

/-- Types of work that can be quality controlled (`WorkType`). -/
inductive WorkType where
  | code
  | documentation
  | tests
  | architecture
  | design
  | deployment
  | security
  | performance
deriving DecidableEq

/-- Metrics for quality assessment (`QualityMetrics`);
score-carrying floats are modelled as rationals. -/
structure QualityMetrics where
  code_quality : Rat := 0
  test_coverage : Rat := 0
  documentation_completeness : Rat := 0
  security_score : Rat := 0
  performance_score : Rat := 0
  architecture_compliance : Rat := 0
  overall_score : Rat := 0
deriving DecidableEq

/-- `QualityMetrics.calculate_overall_score`: the overall score is the
mean of the six sub-scores.  The source mutates `overall_score` in place;
here the updated record is returned. -/
def calculateOverallScore (m : QualityMetrics) : QualityMetrics :=
  { m with overall_score :=
      (m.code_quality + m.test_coverage + m.documentation_completeness +
       m.security_score + m.performance_score + m.architecture_compliance) / 6 }

/-- A quality issue found during review (`QualityIssue`).  The
`timestamp : datetime` field is omitted (wall-clock time is outside the
embedding; no claim mentions it). -/
structure QualityIssue where
  issue_type : String
  severity : String
  description : String
  file_path : Option String := none
  line_number : Option Nat := none
  suggested_fix : Option String := none
  auto_fixable : Bool := false
  agent_responsible : Option String := none
deriving DecidableEq

/-- A work item for quality control (`WorkItem`).  The `timestamp` field
is omitted as for `QualityIssue`. -/
structure WorkItem where
  id : String
  work_type : WorkType
  file_path : String
  agent_name : String
  project_name : String
  content : String
  requirements : List String
  quality_metrics : QualityMetrics := {}
  issues : List QualityIssue := []
  status : String := "pending"
  revision_count : Nat := 0
  max_revisions : Nat := 3
deriving DecidableEq

/-! ## Review engine: pattern detectors

Each definition carries the pattern list of the corresponding
`QualityReviewEngine` method.  Searches made with `re.IGNORECASE` lower
the subject and state the pattern in lowercase. -/

/-- `_has_error_handling` patterns.  The source lists both
`error\s*\(` and `Error\s*\(`; under IGNORECASE they coincide, and both
entries are kept. -/
def errorHandlingPats : List (List Tok) :=
  [ lits ("try") ++ [ws0, Tok.lit ':'],
    lits ("except") ++ [ws1, wd1],
    lits ("catch") ++ [ws0, Tok.lit '('],
    lits ("throw") ++ [ws1],
    lits ("raise") ++ [ws1],
    lits ("error") ++ [ws0, Tok.lit '('],
    lits ("error") ++ [ws0, Tok.lit '('] ]

def hasErrorHandling (content : List Char) : Bool :=
  errorHandlingPats.any (fun p => reSearch p (toLowerL content))

/-- `_has_logging` patterns. -/
def loggingPats : List (List Tok) :=
  [ lits ("logger."),
    lits ("log."),
    lits ("console.log"),
    lits ("print") ++ [ws0, Tok.lit '('],
    lits ("logging."),
    lits ("log") ++ [ws0, Tok.lit '('] ]

def hasLogging (content : List Char) : Bool :=
  loggingPats.any (fun p => reSearch p (toLowerL content))

/-- `_has_documentation` patterns; compiled with `re.DOTALL`, so `.`
matches newlines and the subject is not lowercased. -/
def documentationPats : List (List Tok) :=
  [ lits ("\"\"\"") ++ [Tok.star anyCh] ++ lits ("\"\"\""),
    [Tok.lit apos, Tok.lit apos, Tok.lit apos, Tok.star anyCh,
     Tok.lit apos, Tok.lit apos, Tok.lit apos],
    lits ("/**") ++ [Tok.star anyCh] ++ lits ("*/"),
    lits ("//") ++ [Tok.star anyCh],
    [Tok.lit '#', Tok.star anyCh] ]

def hasDocumentation (content : List Char) : Bool :=
  documentationPats.any (fun p => reSearch p content)

/-- `_calculate_complexity` patterns (counted with `re.findall`,
IGNORECASE). -/
def complexityPats : List (List Tok) :=
  [ wordPat ("if"), wordPat ("else"), wordPat ("elif"), wordPat ("while"),
    wordPat ("for"), wordPat ("try"), wordPat ("except"), wordPat ("case"),
    wordPat ("switch"),
    [Tok.wb, Tok.lit '?', ws0, Tok.star anyNoNl, ws0, Tok.lit ':', ws0],
    wordPat ("and"), wordPat ("or"),
    [Tok.lit '|', Tok.lit '|'],
    [Tok.lit '&', Tok.lit '&'] ]

def calcComplexity (content : List Char) : Nat :=
  1 + (complexityPats.map (fun p => countRe p (toLowerL content))).sum

/-- Whether a character is a string quote, regex class `["']`. -/
def isQuote (c : Char) : Bool := c = '"' || c = apos

/-- `_check_security_issues` patterns: (pattern, issue_type, description),
IGNORECASE. -/
def securityPats : List (List Tok × String × String) :=
  [ (lits ("eval") ++ [ws0, Tok.lit '('], "dangerous_eval",
     "Use of eval() function is dangerous"),
    (lits ("exec") ++ [ws0, Tok.lit '('], "dangerous_exec",
     "Use of exec() function is dangerous"),
    (lits ("input") ++ [ws0, Tok.lit '('], "dangerous_input",
     "Direct user input without validation"),
    (lits ("pickle.loads"), "dangerous_pickle",
     "Pickle deserialization is dangerous"),
    (lits ("shell=true"), "dangerous_shell",
     "Shell injection vulnerability"),
    (lits ("subprocess.") ++ [wd1, Tok.star anyNoNl] ++ lits ("shell=true"),
     "dangerous_subprocess", "Subprocess with shell=True is dangerous"),
    (lits ("password") ++ [ws0, Tok.lit '=', ws0, Tok.cls isQuote,
       Tok.star anyNoNl, Tok.cls isQuote],
     "hardcoded_password", "Hardcoded password detected"),
    (lits ("api_key") ++ [ws0, Tok.lit '=', ws0, Tok.cls isQuote,
       Tok.star anyNoNl, Tok.cls isQuote],
     "hardcoded_api_key", "Hardcoded API key detected"),
    (lits ("secret") ++ [ws0, Tok.lit '=', ws0, Tok.cls isQuote,
       Tok.star anyNoNl, Tok.cls isQuote],
     "hardcoded_secret", "Hardcoded secret detected") ]

/-- Python `issue_type.replace(chr(95), chr(32))` used in the suggested
fix of a security issue. -/
def underscoresToSpaces (s : String) : String :=
  String.mk (s.data.map (fun c => if c = '_' then ' ' else c))

def checkSecurityIssues (content : List Char) : List QualityIssue :=
  securityPats.filterMap (fun pd =>
    if reSearch pd.1 (toLowerL content) then
      some { issue_type := pd.2.1, severity := "critical",
             description := pd.2.2,
             suggested_fix :=
               some ("Remove or properly secure " ++ underscoresToSpaces pd.2.1),
             auto_fixable := false }
    else none)

/-! ## Review engine: type-specific reviewers -/

/-- `quality_standards[WorkType.CODE]["max_complexity"]`. -/
def maxComplexityStd : Nat := 10

/-- `quality_standards[WorkType.DOCUMENTATION]["required_sections"]`. -/
def requiredDocSections : List String := ["overview", "usage", "examples"]

/-- `quality_standards[WorkType.DOCUMENTATION]["max_readability_score"]`. -/
def maxReadabilityStd : Rat := 8

/-- `quality_standards[WorkType.TESTS]["required_types"]`. -/
def requiredTestTypes : List String := ["unit", "integration"]

/-- `quality_standards[WorkType.TESTS]["min_coverage"]`. -/
def minCoverageStd : Rat := 9/10

/-- `quality_standards[WorkType.ARCHITECTURE]["required_patterns"]`. -/
def requiredArchPatterns : List String :=
  ["separation_of_concerns", "single_responsibility"]

/-- `_has_section` patterns for a (lowercase) section name, IGNORECASE.
The source builds the first pattern with the f-string
`rf..#(then braces 1,6)..`; the braces are an f-string replacement field,
so the tuple `(1, 6)` is interpolated and the resulting regex is
`#(1, 6)\s*section`, whose parentheses are a regex group: it matches the
literal text `#1, 6` then whitespace then the section — not one to six
`#` marks.  The token list reproduces that literal text. -/
def sectionPats (sec : String) : List (List Tok) :=
  [ lits ("#1, 6") ++ [ws0] ++ lits sec,
    lits ("## ") ++ lits sec,
    lits sec ++ [Tok.lit ':'],
    lits sec ++ [Tok.lit '\n', Tok.plus (fun c => c = '=' || c = '-')] ]

def hasSection (content : List Char) (sec : String) : Bool :=
  (sectionPats sec).any (fun p => reSearch p (toLowerL content))

/-- `_count_syllables` inner loop, threading `prev_was_vowel`. -/
def countSyllablesAux : List Char → Bool → Nat
  | [], _ => 0
  | c :: cs, prevVowel =>
      if ("aeiouy".data).contains c then
        (if prevVowel then 0 else 1) + countSyllablesAux cs true
      else countSyllablesAux cs false

/-- `_count_syllables`: at least 1, counting vowel runs of the lowered
text. -/
def countSyllables (text : List Char) : Nat :=
  max 1 (countSyllablesAux (toLowerL text) false)

/-- The `[.!?]+` sentence-separator pattern of `_calculate_readability`. -/
def sentencePat : List Tok :=
  [Tok.plus (fun c => c = '.' || c = '!' || c = '?')]

/-- `_calculate_readability`: simplified Flesch score mapped onto a 0-10
scale (higher is worse). -/
def calcReadability (content : List Char) : Rat :=
  let sentences := countRe sentencePat content
  let words := countWords content
  let syllables := countSyllables content
  if sentences = 0 ∨ words = 0 then 0
  else
    let avgSentenceLength : Rat := (words : Rat) / (sentences : Rat)
    let avgSyllablesPerWord : Rat := (syllables : Rat) / (words : Rat)
    let readability : Rat :=
      206835/1000 - (1015/1000) * avgSentenceLength - (846/10) * avgSyllablesPerWord
    max 0 (min 10 ((100 - readability) / 10))

/-- `_has_test_type` pattern table, IGNORECASE. -/
def testTypePats (t : String) : List (List Tok) :=
  if t = "unit" then
    [ lits ("test_") ++ [wd1],
      lits ("unittest"),
      lits ("describe") ++ [ws0, Tok.lit '('],
      lits ("it") ++ [ws0, Tok.lit '('] ]
  else if t = "integration" then
    [ lits ("integration") ++ [Tok.star anyNoNl] ++ lits ("test"),
      lits ("test") ++ [Tok.star anyNoNl] ++ lits ("integration"),
      lits ("e2e") ++ [Tok.star anyNoNl] ++ lits ("test") ]
  else if t = "performance" then
    [ lits ("performance") ++ [Tok.star anyNoNl] ++ lits ("test"),
      lits ("benchmark"),
      lits ("load") ++ [Tok.star anyNoNl] ++ lits ("test") ]
  else if t = "security" then
    [ lits ("security") ++ [Tok.star anyNoNl] ++ lits ("test"),
      lits ("test") ++ [Tok.star anyNoNl] ++ lits ("security"),
      lits ("vulnerability") ++ [Tok.star anyNoNl] ++ lits ("test") ]
  else []

def hasTestType (content : List Char) (t : String) : Bool :=
  (testTypePats t).any (fun p => reSearch p (toLowerL content))

/-- `_calculate_test_coverage`: the filename-convention placeholder.  The
try body cannot raise, so the `except: return 0.0` branch is dead. -/
def calcTestCoverage (filePath : String) : Rat :=
  if pyIn ("test".data) (toLowerL filePath.data) then 9/10 else 7/10

/-- `_check_separation_of_concerns`: at most two of the concern keywords
occur (IGNORECASE substring search). -/
def concernKeywords : List String :=
  ["database", "ui", "business", "validation", "logging"]

def checkSeparationOfConcerns (content : List Char) : Bool :=
  ((concernKeywords.filter
      (fun c => pyIn c.data (toLowerL content))).length) ≤ 2

/-- The case-sensitive `def\s+\w+` pattern of
`_check_single_responsibility` (`re.findall` without flags). -/
def defFnPat : List Tok := lits ("def") ++ [ws1, wd1]

def checkSingleResponsibility (content : List Char) : Bool :=
  countRe defFnPat content ≤ 10

/-- `_check_dependency_injection` patterns, IGNORECASE. -/
def dependencyInjectionPats : List (List Tok) :=
  [ lits ("__init__") ++ [ws0, Tok.lit '(', Tok.plus (fun c => c ≠ ')'), Tok.lit ')'],
    lits ("constructor") ++ [ws0, Tok.lit '(', Tok.plus (fun c => c ≠ ')'), Tok.lit ')'],
    lits ("@inject"),
    lits ("dependencies") ++ [ws0, Tok.lit '='] ]

def checkDependencyInjection (content : List Char) : Bool :=
  dependencyInjectionPats.any (fun p => reSearch p (toLowerL content))

/-- `_check_factory_pattern` patterns, IGNORECASE (the last two coincide
once lowered; both entries are kept). -/
def factoryPats : List (List Tok) :=
  [ lits ("class") ++ [ws1, wd1] ++ lits ("factory"),
    lits ("def") ++ [ws1] ++ lits ("create_") ++ [wd1],
    lits ("factory") ++ [ws0, Tok.lit '('],
    lits ("factory") ++ [ws0, Tok.lit '('] ]

def checkFactoryPattern (content : List Char) : Bool :=
  factoryPats.any (fun p => reSearch p (toLowerL content))

/-- `_follows_pattern`: dispatch on the pattern name; unknown patterns
count as followed. -/
def followsPattern (content : List Char) (pat : String) : Bool :=
  if pat = "separation_of_concerns" then checkSeparationOfConcerns content
  else if pat = "single_responsibility" then checkSingleResponsibility content
  else if pat = "dependency_injection" then checkDependencyInjection content
  else if pat = "factory_pattern" then checkFactoryPattern content
  else true

/-! ## Review engine: issue collection per work type -/

/-- `_review_code_quality`. -/
def reviewCodeQuality (wi : WorkItem) : List QualityIssue :=
  let content := wi.content.data
  (if hasErrorHandling content then []
   else [{ issue_type := "missing_error_handling", severity := "high",
           description := "Code lacks proper error handling",
           file_path := some wi.file_path,
           suggested_fix := some ("Add try-catch blocks and proper error handling"),
           auto_fixable := true }]) ++
  (if hasLogging content then []
   else [{ issue_type := "missing_logging", severity := "medium",
           description := "Code lacks proper logging",
           file_path := some wi.file_path,
           suggested_fix := some ("Add logging statements for debugging and monitoring"),
           auto_fixable := true }]) ++
  (if hasDocumentation content then []
   else [{ issue_type := "missing_documentation", severity := "medium",
           description := "Code lacks proper documentation",
           file_path := some wi.file_path,
           suggested_fix := some ("Add docstrings and comments"),
           auto_fixable := true }]) ++
  (if maxComplexityStd < calcComplexity content then
     [{ issue_type := "high_complexity", severity := "high",
        description := "Code complexity (" ++ toString (calcComplexity content) ++
          ") exceeds maximum (10)",
        file_path := some wi.file_path,
        suggested_fix := some ("Refactor code to reduce complexity"),
        auto_fixable := false }]
   else []) ++
  checkSecurityIssues content

/-- `_review_documentation`.  The readability-issue description embeds the
Python-formatted float; the numeral rendering is elided here (no claim
reads that text). -/
def reviewDocumentation (wi : WorkItem) : List QualityIssue :=
  let content := wi.content.data
  (requiredDocSections.filterMap (fun sec =>
    if hasSection content sec then none
    else some { issue_type := "missing_section", severity := "medium",
                description := "Documentation missing required section: " ++ sec,
                file_path := some wi.file_path,
                suggested_fix := some ("Add " ++ sec ++ " section to documentation"),
                auto_fixable := true })) ++
  (if maxReadabilityStd < calcReadability content then
     [{ issue_type := "poor_readability", severity := "medium",
        description := "Documentation readability score exceeds maximum",
        file_path := some wi.file_path,
        suggested_fix := some ("Simplify language and improve structure"),
        auto_fixable := false }]
   else [])

/-- `_review_tests`.  The coverage-issue description embeds the
Python-formatted float; the numeral rendering is elided here (no claim
reads that text). -/
def reviewTests (wi : WorkItem) : List QualityIssue :=
  let content := wi.content.data
  (requiredTestTypes.filterMap (fun t =>
    if hasTestType content t then none
    else some { issue_type := "missing_test_type", severity := "high",
                description := "Missing " ++ t ++ " tests",
                file_path := some wi.file_path,
                suggested_fix := some ("Add " ++ t ++ " tests"),
                auto_fixable := true })) ++
  (if calcTestCoverage wi.file_path < minCoverageStd then
     [{ issue_type := "low_test_coverage", severity := "high",
        description := "Test coverage below minimum",
        file_path := some wi.file_path,
        suggested_fix := some ("Add more test cases to improve coverage"),
        auto_fixable := false }]
   else [])

/-- `_review_architecture`.  The description is built with an f-string
around an apostrophe-bearing text. -/
def reviewArchitecture (wi : WorkItem) : List QualityIssue :=
  let content := wi.content.data
  requiredArchPatterns.filterMap (fun pat =>
    if followsPattern content pat then none
    else some { issue_type := "missing_pattern", severity := "medium",
                description := "Code doesn" ++ String.mk [apos] ++ "t follow " ++
                  pat ++ " pattern",
                file_path := some wi.file_path,
                suggested_fix := some ("Refactor to follow " ++ pat ++ " pattern"),
                auto_fixable := false })

/-- The work-type dispatch at the top of `review_work_item`: work types
with no matching branch contribute no issues. -/
def collectIssues (wi : WorkItem) : List QualityIssue :=
  match wi.work_type with
  | WorkType.code => reviewCodeQuality wi
  | WorkType.documentation => reviewDocumentation wi
  | WorkType.tests => reviewTests wi
  | WorkType.architecture => reviewArchitecture wi
  | _ => []

/-! ## Review engine: metric calculation and classification -/

/-- `_calculate_code_quality_score`: start from 1.0 and deduct per missing
practice and per complexity band, clamped below at 0. -/
def calcCodeQualityScore (content : List Char) : Rat :=
  let s1 : Rat := 1
  let s2 := if hasErrorHandling content then s1 else s1 - 2/10
  let s3 := if hasLogging content then s2 else s2 - 1/10
  let s4 := if hasDocumentation content then s3 else s3 - 1/10
  let c := calcComplexity content
  let s5 := if 10 < c then s4 - 3/10 else if 5 < c then s4 - 1/10 else s4
  max 0 s5

/-- The required-sections list written in the body of
`_calculate_documentation_completeness` (the method's own five-element
list, distinct from the documentation reviewer's three).  The body never
reaches it: its first statement already raises (see
`calcDocumentationCompletenessPy`). -/
def completenessSections : List String :=
  ["overview", "usage", "examples", "installation", "configuration"]

/-- A Python exception value. -/
inductive PyErr where
  | nameError (name : String)
deriving DecidableEq

/-- `_calculate_documentation_completeness` as executed: its first
statement evaluates `work_item.work_type` and `work_item` is an unbound
name, so every call raises `NameError: name 'work_item' is not defined`,
whatever the content. -/
def calcDocumentationCompletenessPy (content : List Char) : Except PyErr Rat :=
  let _ := content
  Except.error (PyErr.nameError "work_item")

/-- `_calculate_performance_score`: 1.0 minus 0.2 per matched
anti-pattern, clamped below at 0 (IGNORECASE). -/
def performancePats : List (List Tok) :=
  [ lits ("while") ++ [ws1] ++ lits ("true") ++ [ws0, Tok.lit ':'],
    lits ("for") ++ [ws1, Tok.star anyNoNl, ws1] ++ lits ("in") ++ [ws1] ++
      lits ("range") ++ [ws0, Tok.lit '(', ws0] ++ lits ("10000"),
    lits ("time.sleep") ++ [ws0, Tok.lit '(', ws0,
      Tok.cls (fun c => ("123456789".data).contains c)],
    lits ("recursive") ++ [Tok.star anyNoNl] ++ lits ("factorial") ]

def calcPerformanceScore (content : List Char) : Rat :=
  max 0 (performancePats.foldl
    (fun s p => if reSearch p (toLowerL content) then s - 2/10 else s) 1)

/-- `_calculate_architecture_compliance`: 1.0 minus 0.2 per pattern not
followed, clamped below at 0. -/
def archCompliancePatterns : List String :=
  ["separation_of_concerns", "single_responsibility"]

def calcArchitectureCompliance (content : List Char) : Rat :=
  max 0 (archCompliancePatterns.foldl
    (fun s p => if followsPattern content p then s else s - 2/10) 1)

/-- `_calculate_quality_metrics` as executed: the first two sub-scores
are assigned, then the documentation-completeness call raises, so the
method never returns.  (The partial in-place update of the first two
metric fields before the raise is elided; no claim reads it.) -/
def calcQualityMetricsPy (wi : WorkItem) : Except PyErr QualityMetrics :=
  let content := wi.content.data
  let _cq := calcCodeQualityScore content
  let _tc := calcTestCoverage wi.file_path
  match calcDocumentationCompletenessPy content with
  | Except.error e => Except.error e
  | Except.ok dc =>
      Except.ok (calculateOverallScore
        { code_quality := _cq, test_coverage := _tc,
          documentation_completeness := dc,
          security_score :=
            max 0 (1 - ((checkSecurityIssues content).length : Rat) * (2/10)),
          performance_score := calcPerformanceScore content,
          architecture_compliance := calcArchitectureCompliance content,
          overall_score := 0 })

/-- `_determine_quality_standard`: a critical issue recorded on the work
item overrides everything; otherwise the score ladder applies.  Note the
method reads `work_item.issues` — the issue list stored on the item, not
the issue list the current pass computed (the caller attaches that list
only after `review_work_item` returns). -/
def determineQualityStandard (wi : WorkItem) : QualityStandard :=
  let overall := wi.quality_metrics.overall_score
  let criticalIssues :=
    (wi.issues.filter (fun i => i.severity = "critical")).length
  if 0 < criticalIssues then QualityStandard.unacceptable
  else if 9/10 ≤ overall then QualityStandard.excellent
  else if 8/10 ≤ overall then QualityStandard.good
  else if 7/10 ≤ overall then QualityStandard.acceptable
  else if 6/10 ≤ overall then QualityStandard.needs_improvement
  else QualityStandard.unacceptable

/-- `review_work_item` as executed: the metric step always raises (see
`calcQualityMetricsPy`), so no pass returns a quality standard. -/
def reviewWorkItemEnginePy (wi : WorkItem) :
    Except PyErr (QualityStandard × List QualityIssue × WorkItem) :=
  let issues := collectIssues wi
  match calcQualityMetricsPy wi with
  | Except.error e => Except.error e
  | Except.ok m =>
      let wi1 := { wi with quality_metrics := m }
      Except.ok (determineQualityStandard wi1, issues, wi1)

/-! ## Auto-fix engine -/

/-- The `re.match` pattern of several fix transformers: a `def` line. -/
def defLinePat : List Tok := ws0 :: lits ("def") ++ [ws1]

/-- The line rewriting loop of `_fix_missing_error_handling`, threading
`in_function` and `indent_level`. -/
def fixEHLines : List (List Char) → Bool → Nat → List (List Char)
  | [], _, _ => []
  | line :: rest, inFn, ind =>
      if reMatchStart defLinePat line then
        line :: fixEHLines rest true (leadingWsCount line)
      else if inFn && hasNonWs line &&
          !((List.replicate (ind + 4) ' ').isPrefixOf line) then
        line :: fixEHLines rest false ind
      else if inFn && hasNonWs line &&
          !(("try:".data).isPrefixOf (line.dropWhile isWs)) then
        (List.replicate (ind + 4) ' ' ++ ("try:").data) ::
        (List.replicate (ind + 8) ' ' ++ line.dropWhile isWs) ::
        (List.replicate (ind + 4) ' ' ++ ("except Exception as e:").data) ::
        (List.replicate (ind + 8) ' ' ++ ("logger.error(f\"Error: {e}\")").data) ::
        (List.replicate (ind + 8) ' ' ++ ("raise").data) ::
        fixEHLines rest false ind
      else
        line :: fixEHLines rest inFn ind

/-- `_fix_missing_error_handling`. -/
def fixMissingErrorHandling (content : List Char) (issue : QualityIssue) :
    List Char :=
  let _ := issue
  if pyIn ("def ".data) content then joinNl (fixEHLines (splitNl content) false 0)
  else content

/-- The line classifier of `_fix_missing_logging`'s partition loop. -/
def isImportLine (l : List Char) : Bool :=
  ("import ".data).isPrefixOf l || ("from ".data).isPrefixOf l

/-- The else-branch of `_fix_missing_logging`: partition the lines into
the import section and the rest (order preserved), append the logging
incantation (its import line and the logger definition) to the import
section, and rejoin with one blank line between the sections. -/
def loggingRebuild (content : List Char) : List Char :=
  joinNl ((splitNl content).filter isImportLine ++
    [("import logging").data, ("logger = logging.getLogger(__name__)").data] ++
    [[]] ++ (splitNl content).filter (fun l => !(isImportLine l)))

/-- `_fix_missing_logging` (the `issue` parameter is unused, as in the
source). -/
def fixMissingLogging (content : List Char) (_issue : QualityIssue) : List Char :=
  if pyIn ("import logging".data) content then content
  else loggingRebuild content

/-- `_fix_missing_documentation`: insert a TODO docstring after every
`def` line. -/
def fixMissingDocumentation (content : List Char) (issue : QualityIssue) :
    List Char :=
  let _ := issue
  if pyIn ("def ".data) content then
    joinNl (((splitNl content).map (fun line =>
      if reMatchStart defLinePat line then
        let indent := leadingWsCount line
        [line,
         List.replicate (indent + 4) ' ' ++ ("\"\"\"").data,
         List.replicate (indent + 4) ' ' ++ ("TODO: Add function description").data,
         List.replicate (indent + 4) ' ' ++ ("\"\"\"").data]
      else [line])).flatten)
  else content

/-- Capture of `\s+(\w+)` right after a keyword: at least one whitespace
character, then a maximal nonempty run of word characters (the greedy
`\s+` cannot trade characters with `\w+`, the classes are disjoint). -/
def wsWordCapture (s : List Char) : Option (List Char) :=
  match s with
  | [] => none
  | c :: cs =>
      if isWs c then
        let rest := cs.dropWhile isWs
        let w := rest.takeWhile isWordChar
        if w.isEmpty then none else some w
      else none

/-- First (leftmost) match of the capture pattern of
`_fix_missing_section`: the group of a search for `section:` then
whitespace then a word. -/
def findSectionCapture : List Char → Option (List Char)
  | [] => none
  | c :: cs =>
      match (if ("section:".data).isPrefixOf (c :: cs) then
               wsWordCapture ((c :: cs).drop (("section:".data).length))
             else none) with
      | some w => some w
      | none => findSectionCapture cs

/-- The `section_templates` table of `_fix_missing_section`. -/
def sectionTemplates (sec : String) : Option String :=
  if sec = "overview" then some "## Overview\n\nTODO: Add project overview\n"
  else if sec = "usage" then some "## Usage\n\nTODO: Add usage instructions\n"
  else if sec = "examples" then some "## Examples\n\nTODO: Add code examples\n"
  else if sec = "installation" then
    some "## Installation\n\nTODO: Add installation instructions\n"
  else if sec = "configuration" then
    some "## Configuration\n\nTODO: Add configuration details\n"
  else none

/-- Python `str.title()` restricted to a single word, the only shape the
default-template branch ever receives (a `\w+` capture). -/
def pyTitleWord (w : List Char) : List Char :=
  match w with
  | [] => []
  | c :: cs => c.toUpper :: cs.map Char.toLower

/-- `_fix_missing_section`: append the template of the section named in
the issue description. -/
def fixMissingSection (content : List Char) (issue : QualityIssue) : List Char :=
  match findSectionCapture issue.description.data with
  | none => content
  | some w =>
      let sec := String.mk w
      let template := (sectionTemplates sec).getD
        ("## " ++ String.mk (pyTitleWord w) ++ "\n\nTODO: Add " ++ sec ++ " content\n")
      content ++ '\n' :: template.data

/-- Capture of `Missing\s+(\w+)\s+tests` after the `Missing` keyword:
whitespace, a word, whitespace, then the literal `tests`. -/
def wsWordTestsCapture (s : List Char) : Option (List Char) :=
  match s with
  | [] => none
  | c :: cs =>
      if isWs c then
        let rest := cs.dropWhile isWs
        let w := rest.takeWhile isWordChar
        if w.isEmpty then none
        else
          match rest.drop w.length with
          | [] => none
          | d :: ds =>
              if isWs d && ("tests".data).isPrefixOf (ds.dropWhile isWs) then some w
              else none
      else none

/-- First match of the capture pattern of `_fix_missing_test_type`. -/
def findMissingTestsCapture : List Char → Option (List Char)
  | [] => none
  | c :: cs =>
      match (if ("Missing".data).isPrefixOf (c :: cs) then
               wsWordTestsCapture ((c :: cs).drop (("Missing".data).length))
             else none) with
      | some w => some w
      | none => findMissingTestsCapture cs

/-- The `test_templates` table of `_fix_missing_test_type`. -/
def testTemplates (t : String) : Option String :=
  if t = "unit" then
    some "\ndef test_unit_example():\n    \"\"\"Unit test example\"\"\"\n    # TODO: Add unit test\n    assert True\n"
  else if t = "integration" then
    some "\ndef test_integration_example():\n    \"\"\"Integration test example\"\"\"\n    # TODO: Add integration test\n    assert True\n"
  else none

/-- `_fix_missing_test_type`: append a template for the test type named
in the issue description. -/
def fixMissingTestType (content : List Char) (issue : QualityIssue) : List Char :=
  match findMissingTestsCapture issue.description.data with
  | none => content
  | some w =>
      let t := String.mk w
      let template := (testTemplates t).getD
        ("\ndef test_" ++ t ++ "_example():\n    \"\"\"TODO: Add " ++ t ++
         " test\"\"\"\n    assert True\n")
      content ++ '\n' :: template.data

/-- The `fix_patterns` registry of `AutoFixEngine`. -/
def lookupFix (t : String) : Option (List Char → QualityIssue → List Char) :=
  if t = "missing_error_handling" then some fixMissingErrorHandling
  else if t = "missing_logging" then some fixMissingLogging
  else if t = "missing_documentation" then some fixMissingDocumentation
  else if t = "missing_section" then some fixMissingSection
  else if t = "missing_test_type" then some fixMissingTestType
  else none

/-- `AutoFixEngine.auto_fix_issue`: `some` of the rewritten item when the
issue is auto-fixable, a transformer is registered and the content
changed; `none` otherwise.  (The transformers here are total, so the
source's swallowed transformer exception cannot arise.) -/
def autoFixIssue (wi : WorkItem) (issue : QualityIssue) : Option WorkItem :=
  if !issue.auto_fixable then none
  else
    match lookupFix issue.issue_type with
    | none => none
    | some fixFn =>
        let fixedContent := fixFn wi.content.data issue
        if fixedContent ≠ wi.content.data then
          some { wi with content := String.mk fixedContent }
        else none

/-! ## Review orchestrator (CEOQualityControlAgent) -/

/-- The executive dashboard counters (`dashboard_data`). -/
structure DashboardData where
  total_reviews : Nat := 0
  passed_reviews : Nat := 0
  failed_reviews : Nat := 0
  auto_fixes : Nat := 0
  agent_scores : List (String × Rat) := []
deriving DecidableEq

/-- One agent's record in `agent_performance`.  The source also carries
the always-empty `specialties` and `improvement_areas` lists; they are
never written and are omitted. -/
structure AgentStats where
  total_reviews : Nat := 0
  passed_reviews : Nat := 0
  failed_reviews : Nat := 0
  avg_quality_score : Rat := 0
  revision_rate : Rat := 0
deriving DecidableEq

/-- The orchestrator's mutable state.  `notifications` records each
delivery through `_send_agent_notification` as (agent, item snapshot the
message was generated from); `escalations` records each report stored by
`_escalate_to_ceo`; `stored_reviews` the records written by
`_store_review_results` — the rendered report texts are abstracted to the
snapshots they are generated from. -/
structure AgentState where
  dashboard : DashboardData := {}
  active_reviews : List (String × WorkItem) := []
  agent_performance : List (String × AgentStats) := []
  notifications : List (String × WorkItem) := []
  escalations : List WorkItem := []
  stored_reviews : List WorkItem := []
deriving DecidableEq

/-- Python dict read: first (only) binding of the key. -/
def lookupKey {α : Type} (l : List (String × α)) (k : String) : Option α :=
  (l.find? (fun p => p.1 == k)).map (fun p => p.2)

/-- Python dict write: replace the binding in place, else append. -/
def upsertKey {α : Type} (l : List (String × α)) (k : String) (v : α) :
    List (String × α) :=
  if (l.find? (fun p => p.1 == k)).isSome then
    l.map (fun p => if p.1 == k then (k, v) else p)
  else l ++ [(k, v)]

/-- Python `del d[k]`. -/
def eraseKey {α : Type} (l : List (String × α)) (k : String) :
    List (String × α) :=
  l.filter (fun p => p.1 != k)

/-- `_escalate_to_ceo`: emit one escalation report (via
`_store_ceo_escalation` and `_update_ceo_dashboard`).  The work item is
not modified — in particular its status is not changed. -/
def escalateToCEO (st : AgentState) (wi : WorkItem) : AgentState :=
  { st with escalations := st.escalations ++ [wi] }

/-- `_send_for_revision`: set status `needs_revision`, bump the revision
count and the failed counter, deliver the revision notice, then escalate
when the count has reached `max_revisions`. -/
def sendForRevision (st : AgentState) (wi : WorkItem) : AgentState × WorkItem :=
  let wi1 := { wi with status := "needs_revision",
                       revision_count := wi.revision_count + 1 }
  let st1 := { st with
    dashboard := { st.dashboard with
      failed_reviews := st.dashboard.failed_reviews + 1 },
    notifications := st.notifications ++ [(wi1.agent_name, wi1)] }
  if wi1.max_revisions ≤ wi1.revision_count then (escalateToCEO st1 wi1, wi1)
  else (st1, wi1)

/-- A fresh `agent_performance` entry. -/
def freshAgentStats : AgentStats := {}

/-- The per-review statistics update of `_update_agent_performance`
(total incremented first; the running mean uses `(total - 1)`). -/
def updateAgentStats (stats : AgentStats) (overall : Rat) (approved : Bool) :
    AgentStats :=
  let total := stats.total_reviews + 1
  let failed := stats.failed_reviews + (if approved then 0 else 1)
  { total_reviews := total,
    passed_reviews := stats.passed_reviews + (if approved then 1 else 0),
    failed_reviews := failed,
    avg_quality_score :=
      (stats.avg_quality_score * ((total : Rat) - 1) + overall) / (total : Rat),
    revision_rate := (failed : Rat) / (total : Rat) }

/-- `_update_agent_performance`: update the agent's record and mirror the
running mean into the dashboard's agent scores. -/
def updateAgentPerformance (st : AgentState) (wi : WorkItem) : AgentState :=
  let prev := (lookupKey st.agent_performance wi.agent_name).getD freshAgentStats
  let stats := updateAgentStats prev wi.quality_metrics.overall_score
    (wi.status == "approved")
  { st with
    agent_performance := upsertKey st.agent_performance wi.agent_name stats,
    dashboard := { st.dashboard with
      agent_scores :=
        upsertKey st.dashboard.agent_scores wi.agent_name stats.avg_quality_score } }

/-- `_attempt_auto_fixes`: walk the item's issues, applying the
registered transformer of each auto-fixable one to the evolving content;
count the fixes and bump the dashboard counter per fix.  The final write
of the fixed content back to disk is modelled as succeeding (on an IO
failure the source zeroes the count). -/
def attemptAutoFixes (st : AgentState) (wi : WorkItem) :
    Nat × WorkItem × AgentState :=
  wi.issues.foldl
    (fun acc issue =>
      if issue.auto_fixable then
        match autoFixIssue acc.2.1 issue with
        | some wi2 =>
            (acc.1 + 1, wi2,
             { acc.2.2 with dashboard := { acc.2.2.dashboard with
                 auto_fixes := acc.2.2.dashboard.auto_fixes + 1 } })
        | none => acc
      else acc)
    (0, wi, st)

/-- `_store_review_results` (Redis and file persistence abstracted to an
append; its internal exception handler makes it total). -/
def storeReviewResults (st : AgentState) (wi : WorkItem) : AgentState :=
  { st with stored_reviews := st.stored_reviews ++ [wi] }

/-- `approve` steps of `_review_work_item`: status `approved` and the
passed counter bumped. -/
def approveItem (st : AgentState) (wi : WorkItem) : AgentState × WorkItem :=
  ({ st with dashboard := { st.dashboard with
       passed_reviews := st.dashboard.passed_reviews + 1 } },
   { wi with status := "approved" })

/-- The outcome of one `_review_work_item` call: final state and item,
the standard of the first engine pass (`none` when the engine raised
before returning one), whether `_attempt_auto_fixes` was invoked, the
number of engine passes run, and whether the except-handler fired. -/
structure ReviewOutcome where
  state : AgentState
  item : WorkItem
  firstStandard : Option QualityStandard
  autoFixAttempted : Bool
  reviewPasses : Nat
  caught : Bool
deriving DecidableEq

/-- The try-body of `_review_work_item` after the item is registered as
active: engine pass, counter bump, the four-way policy branch, then
persistence and agent-performance update.  A raised engine exception
carries the state and item as they were at the raise (the only raise
sites are the engine calls, which precede the mutations of the branch
they sit in). -/
def reviewBody
    (engine : WorkItem → Except PyErr (QualityStandard × List QualityIssue × WorkItem))
    (autoFixEnabled : Bool) (stA : AgentState) (wi : WorkItem) :
    Except (PyErr × AgentState × WorkItem)
      (AgentState × WorkItem × QualityStandard × Bool × Nat) :=
  match engine wi with
  | Except.error e => Except.error (e, stA, wi)
  | Except.ok r1 =>
      let std1 := r1.1
      let wi2 := { r1.2.2 with issues := r1.2.1 }
      let stB := { stA with dashboard := { stA.dashboard with
        total_reviews := stA.dashboard.total_reviews + 1 } }
      let cont : Except (PyErr × AgentState × WorkItem)
          (AgentState × WorkItem × Bool × Nat) :=
        if std1 = QualityStandard.excellent ∨ std1 = QualityStandard.good then
          Except.ok (let r := approveItem stB wi2; (r.1, r.2, false, 1))
        else if std1 = QualityStandard.acceptable then
          Except.ok (let r := approveItem stB wi2; (r.1, r.2, false, 1))
        else if std1 = QualityStandard.needs_improvement then
          if autoFixEnabled then
            let af := attemptAutoFixes stB wi2
            if 0 < af.1 then
              match engine af.2.1 with
              | Except.error e => Except.error (e, af.2.2, af.2.1)
              | Except.ok r2 =>
                  let wiR2 := { r2.2.2 with issues := r2.2.1 }
                  if r2.1 = QualityStandard.excellent ∨
                      r2.1 = QualityStandard.good ∨
                      r2.1 = QualityStandard.acceptable then
                    Except.ok (let r := approveItem af.2.2 wiR2; (r.1, r.2, true, 2))
                  else
                    Except.ok (let r := sendForRevision af.2.2 wiR2; (r.1, r.2, true, 2))
            else
              Except.ok (let r := sendForRevision af.2.2 af.2.1; (r.1, r.2, true, 1))
          else
            Except.ok (let r := sendForRevision stB wi2; (r.1, r.2, false, 1))
        else
          Except.ok (let r := sendForRevision stB wi2; (r.1, r.2, false, 1))
      match cont with
      | Except.error e => Except.error e
      | Except.ok r3 =>
          let stE := updateAgentPerformance (storeReviewResults r3.1 r3.2.1) r3.2.1
          Except.ok (stE, r3.2.1, std1, r3.2.2.1, r3.2.2.2)

/-- `_review_work_item`: register the item as active, run the try-body,
on an exception set status `error`, and in all cases drop the item from
the active set (the `finally`). -/
def runReview
    (engine : WorkItem → Except PyErr (QualityStandard × List QualityIssue × WorkItem))
    (autoFixEnabled : Bool) (st : AgentState) (wi : WorkItem) : ReviewOutcome :=
  let stA := { st with active_reviews := upsertKey st.active_reviews wi.id wi }
  match reviewBody engine autoFixEnabled stA wi with
  | Except.ok (st1, wi1, std1, att, passes) =>
      { state := { st1 with active_reviews := eraseKey st1.active_reviews wi.id },
        item := wi1, firstStandard := some std1, autoFixAttempted := att,
        reviewPasses := passes, caught := false }
  | Except.error (_, stX, wiX) =>
      { state := { stX with active_reviews := eraseKey stX.active_reviews wi.id },
        item := { wiX with status := "error" }, firstStandard := none,
        autoFixAttempted := false, reviewPasses := 0, caught := true }

/-- The engine as written, wired into the orchestrator (always raises;
see `calcDocumentationCompletenessPy`). -/
def enginePy : WorkItem → Except PyErr (QualityStandard × List QualityIssue × WorkItem) :=
  reviewWorkItemEnginePy

/-- A stub reviewer that classifies every item `unacceptable`: a
concrete engine value used to exercise the orchestrator's policy branch
in a witness (the orchestrator receives its engine as the injected
collaborator `self.quality_engine`). -/
def constUnacceptableEngine :
    WorkItem → Except PyErr (QualityStandard × List QualityIssue × WorkItem) :=
  fun wi => Except.ok (QualityStandard.unacceptable, [], wi)

/-! ## The spec's classification ladder and concrete inputs -/

/-- Modelled from the spec (section 4.2): classification by overall score
alone, with exact boundaries 0.9 / 0.8 / 0.7 / 0.6; compared against the
source's `_determine_quality_standard` in the claim theorems. -/
def specQualityLadder (s : Rat) : QualityStandard :=
  if 9/10 ≤ s then QualityStandard.excellent
  else if 8/10 ≤ s then QualityStandard.good
  else if 7/10 ≤ s then QualityStandard.acceptable
  else if 6/10 ≤ s then QualityStandard.needs_improvement
  else QualityStandard.unacceptable

/-- Code content that carries a security anti-pattern (a `critical`
issue) while keeping every other detector satisfied. -/
def c1str : String := "# doc\nprint(1)\neval(x)\nraise E"

/-- A fresh work item over `c1str` (no issues recorded yet). -/
def c1item : WorkItem :=
  { id := "w1", work_type := WorkType.code, file_path := "main.py",
    agent_name := "agent-a", project_name := "proj", content := c1str,
    requirements := [] }

/-- A critical issue as the security reviewer records it. -/
def criticalRecorded : QualityIssue :=
  { issue_type := "dangerous_eval", severity := "critical",
    description := "Use of eval() function is dangerous" }

/-- A plain work item at which the metric step of the code as written
is evaluated. -/
def c6item : WorkItem :=
  { id := "w6", work_type := WorkType.code, file_path := "main.py",
    agent_name := "agent-a", project_name := "proj", content := "",
    requirements := [] }

def c3state : AgentState := {}

/-- An item one revision short of its limit. -/
def c3itemA : WorkItem :=
  { id := "w3a", work_type := WorkType.code, file_path := "a.py",
    agent_name := "agent-a", project_name := "proj", content := "",
    requirements := [], revision_count := 2, max_revisions := 3 }

/-- An item already at its limit, resubmitted once more. -/
def c3itemB : WorkItem :=
  { id := "w3b", work_type := WorkType.code, file_path := "b.py",
    agent_name := "agent-a", project_name := "proj", content := "",
    requirements := [], revision_count := 3, max_revisions := 3 }

def c4state : AgentState := {}

/-- An item whose next revision-handling submission reaches the limit. -/
def c4item : WorkItem :=
  { id := "w4", work_type := WorkType.code, file_path := "d.py",
    agent_name := "agent-b", project_name := "proj", content := "",
    requirements := [], revision_count := 2, max_revisions := 3 }

/-- The issue `_review_code_quality` emits for missing documentation. -/
def c5docIssue : QualityIssue :=
  { issue_type := "missing_documentation", severity := "medium",
    description := "Code lacks proper documentation", auto_fixable := true }

/-- The issue `_review_documentation` emits for a missing overview
section. -/
def c5sectionIssue : QualityIssue :=
  { issue_type := "missing_section", severity := "medium",
    description := "Documentation missing required section: overview",
    auto_fixable := true }

/-- A one-function content for the documentation transformer. -/
def c5defStr : String := "def f():"

/-- A one-function body for the error-handling transformer. -/
def c5ehStr : String := "def f():\n    x = 1"

/-- The issue `_review_code_quality` emits for missing error handling. -/
def c5ehIssue : QualityIssue :=
  { issue_type := "missing_error_handling", severity := "high",
    description := "Code lacks proper error handling", auto_fixable := true }

/-- The issue `_review_tests` emits for missing unit tests. -/
def c5testIssue : QualityIssue :=
  { issue_type := "missing_test_type", severity := "high",
    description := "Missing unit tests", auto_fixable := true }

/-- An item with no recorded issues and overall score 0.75. -/
def c7witItem : WorkItem :=
  { id := "w7", work_type := WorkType.code, file_path := "c.py",
    agent_name := "agent-a", project_name := "proj", content := "",
    requirements := [], quality_metrics := { overall_score := 3/4 } }

def c10state : AgentState := {}

/-- An item whose stored issues make its first pass `unacceptable`. -/
def c10item : WorkItem :=
  { id := "w10", work_type := WorkType.code, file_path := "lib.py",
    agent_name := "agent-c", project_name := "proj", content := "",
    requirements := [], issues := [criticalRecorded] }

/-! ## Helper lemmas -/

/-- With no critical issue recorded on the item, the source's
classification coincides with the spec's score ladder. -/
theorem determineEqLadderAux (wi : WorkItem)
    (h : (wi.issues.filter (fun i => i.severity = "critical")).length = 0) :
    determineQualityStandard wi =
      specQualityLadder wi.quality_metrics.overall_score := by
  unfold determineQualityStandard specQualityLadder
  rw [h]
  norm_num

/-- A step function that never increases survives a `foldl` bounded by
its start. -/
theorem foldlLeInit {α : Type} (g : Rat → α → Rat) (hg : ∀ s a, g s a ≤ s)
    (l : List α) : ∀ s : Rat, List.foldl g s l ≤ s := by
  induction l with
  | nil => intro s; simp
  | cons a t ih =>
      intro s
      calc List.foldl g (g s a) t ≤ g s a := ih (g s a)
        _ ≤ s := hg s a

/-- Range of `_calculate_code_quality_score`. -/
theorem calcCodeQualityScoreRange (c : List Char) :
    0 ≤ calcCodeQualityScore c ∧ calcCodeQualityScore c ≤ 1 := by
  simp only [calcCodeQualityScore]
  split_ifs <;>
    exact ⟨le_max_left 0 _, max_le (by norm_num) (by norm_num)⟩

/-- Range of `_calculate_performance_score`. -/
theorem calcPerformanceScoreRange (c : List Char) :
    0 ≤ calcPerformanceScore c ∧ calcPerformanceScore c ≤ 1 := by
  refine ⟨le_max_left 0 _, max_le (by norm_num) ?_⟩
  refine foldlLeInit _ (fun s p => ?_) performancePats 1
  split_ifs <;> linarith

/-- Range of `_calculate_architecture_compliance`. -/
theorem calcArchitectureComplianceRange (c : List Char) :
    0 ≤ calcArchitectureCompliance c ∧ calcArchitectureCompliance c ≤ 1 := by
  refine ⟨le_max_left 0 _, max_le (by norm_num) ?_⟩
  refine foldlLeInit _ (fun s p => ?_) archCompliancePatterns 1
  split_ifs <;> linarith

/-- Range of the security sub-score for any issue count. -/
theorem securityScoreRange (n : Nat) :
    0 ≤ max 0 (1 - (n : Rat) * (2/10)) ∧ max 0 (1 - (n : Rat) * (2/10)) ≤ 1 := by
  refine ⟨le_max_left 0 _, max_le (by norm_num) ?_⟩
  have h : (0 : Rat) ≤ (n : Rat) * (2/10) := by positivity
  linarith

/-- Range of `_calculate_test_coverage`. -/
theorem calcTestCoverageRange (p : String) :
    0 ≤ calcTestCoverage p ∧ calcTestCoverage p ≤ 1 := by
  unfold calcTestCoverage
  split_ifs <;> constructor <;> norm_num

/-! ## Claim C1 -/

/-- C1.  At `c1item` the review pass detects exactly one
critical-severity issue (the `eval` anti-pattern), yet the engine as
written raises in the metric step and returns no quality standard at
all; and `_determine_quality_standard` classifies from the issue list
stored on the item — empty here, whatever the metrics — so the issues a
pass detects can never make that same pass `unacceptable` (the caller
attaches them only after `review_work_item` returns). -/
theorem c1_critical_detected_pass_raises_and_classifier_ignores_it :
    ((collectIssues c1item).filter
        (fun i => i.severity = "critical")).length = 1 ∧
    reviewWorkItemEnginePy c1item = Except.error (PyErr.nameError "work_item") ∧
    (∀ m : QualityMetrics,
      determineQualityStandard { c1item with quality_metrics := m }
        = specQualityLadder m.overall_score) := by
  refine ⟨by decide, rfl, fun m => ?_⟩
  exact determineEqLadderAux { c1item with quality_metrics := m }
    (by rw [show ({ c1item with quality_metrics := m } : WorkItem).issues
              = [] from rfl]; rfl)

/-! ## Claim C6 -/

/-- C6.  The metric computation of the code as written raises for every
work item before the last four sub-scores and the overall score are
assigned (evaluated also at the concrete item `c6item`), so no item ever
reaches the claimed post-metrics state; the surviving pieces of the
claim hold of the source formulas themselves:
`QualityMetrics.calculate_overall_score` sets the overall score to the
arithmetic mean of the six sub-scores, and each computable sub-score
formula stays inside [0, 1]. -/
theorem c6_metric_step_raises_overall_method_is_mean :
    (∀ wi : WorkItem,
      calcQualityMetricsPy wi = Except.error (PyErr.nameError "work_item")) ∧
    calcQualityMetricsPy c6item = Except.error (PyErr.nameError "work_item") ∧
    (∀ m : QualityMetrics, (calculateOverallScore m).overall_score =
      (m.code_quality + m.test_coverage + m.documentation_completeness +
       m.security_score + m.performance_score + m.architecture_compliance) / 6) ∧
    (∀ c : List Char, 0 ≤ calcCodeQualityScore c ∧ calcCodeQualityScore c ≤ 1) ∧
    (∀ p : String, 0 ≤ calcTestCoverage p ∧ calcTestCoverage p ≤ 1) ∧
    (∀ c : List Char, 0 ≤ calcPerformanceScore c ∧ calcPerformanceScore c ≤ 1) ∧
    (∀ c : List Char,
      0 ≤ calcArchitectureCompliance c ∧ calcArchitectureCompliance c ≤ 1) ∧
    (∀ n : Nat, 0 ≤ max 0 (1 - (n : Rat) * (2/10)) ∧
      max 0 (1 - (n : Rat) * (2/10)) ≤ 1) :=
  ⟨fun _ => rfl, rfl, fun _ => rfl, calcCodeQualityScoreRange,
   calcTestCoverageRange, calcPerformanceScoreRange,
   calcArchitectureComplianceRange, securityScoreRange⟩

/-! ## Claim C7 -/

/-- C7.  With no critical-severity issue recorded on the work item, the
classification is the spec's score ladder with exact boundaries 0.9 /
0.8 / 0.7 / 0.6 and `unacceptable` below 0.6. -/
theorem c7_no_critical_classification_is_score_ladder (wi : WorkItem)
    (h : (wi.issues.filter (fun i => i.severity = "critical")).length = 0) :
    determineQualityStandard wi =
      specQualityLadder wi.quality_metrics.overall_score :=
  determineEqLadderAux wi h

/-- C7, witness: an issue-free item with overall score 0.75 classifies
through the ladder (as `acceptable`). -/
theorem c7_ladder_witness :
    determineQualityStandard c7witItem = specQualityLadder (3/4) :=
  c7_no_critical_classification_is_score_ladder c7witItem (by decide)

/-! ## Claim C5 -/

/-- A prefix match gives a substring match. -/
theorem pyInOfPrefix (n s : List Char) (h : n.isPrefixOf s = true) :
    pyIn n s = true := by
  cases s with
  | nil => simpa [pyIn] using h
  | cons c cs => simp [pyIn, h]

/-- A substring of the right part is a substring of the whole. -/
theorem pyInAppendLeft (l : List Char) (t u : List Char) (h : pyIn l u = true) :
    pyIn l (t ++ u) = true := by
  induction t with
  | nil => simpa using h
  | cons c t ih => rw [List.cons_append, pyIn, ih, Bool.or_true]

/-- A line of the list is a substring of the joined text. -/
theorem pyInJoinNl (l : List Char) :
    ∀ L : List (List Char), l ∈ L → pyIn l (joinNl L) = true := by
  intro L
  induction L with
  | nil => intro hm; cases hm
  | cons a t ih =>
      intro hm
      cases t with
      | nil =>
          have he : l = a := by simpa using hm
          subst he
          have hj : joinNl [l] = l := by simp [joinNl]
          rw [hj]
          exact pyInOfPrefix l l (by simp [List.isPrefixOf_iff_prefix])
      | cons b t2 =>
          have hj : joinNl (a :: b :: t2) = a ++ '\n' :: joinNl (b :: t2) := by
            simp [joinNl]
          rcases List.mem_cons.mp hm with h | h
          · subst h
            rw [hj]
            apply pyInOfPrefix
            simp [List.isPrefixOf_iff_prefix]
          · have hin := ih h
            rw [hj]
            have hsplit : a ++ '\n' :: joinNl (b :: t2)
                = (a ++ ['\n']) ++ joinNl (b :: t2) := by simp
            rw [hsplit]
            exact pyInAppendLeft l _ _ hin

/-- C5, amended: the `missing_logging` transformer is idempotent — its
first application leaves a literal `import logging` line in the joined
result, so a second application finds the guard substring and is a
no-op.  (The other registered transformers are not idempotent; see the
counterexample.) -/
theorem c5_missing_logging_transformer_idempotent
    (content : List Char) (issue : QualityIssue) :
    fixMissingLogging (fixMissingLogging content issue) issue =
      fixMissingLogging content issue := by
  have hfix : ∀ (s : List Char) (i : QualityIssue),
      pyIn (("import logging").data) s = true → fixMissingLogging s i = s := by
    intro s i hs
    unfold fixMissingLogging
    rw [if_pos hs]
  by_cases h : pyIn (("import logging").data) content = true
  · rw [hfix content issue h, hfix content issue h]
  · have hr : pyIn (("import logging").data)
        (fixMissingLogging content issue) = true := by
      unfold fixMissingLogging
      rw [if_neg h]
      unfold loggingRebuild
      apply pyInJoinNl
      simp
    exact hfix _ issue hr

/-- C5, counterexample.  All four other registered transformers are not
idempotent: re-applying `missing_error_handling` to its own output wraps
the already-wrapped body line in another `try`/`except`; re-applying
`missing_documentation` inserts a second TODO docstring after the same
`def` line; re-applying `missing_section` appends the overview template
a second time; and re-applying `missing_test_type` appends its test
template a second time. -/
theorem c5_other_transformers_not_idempotent :
    (lookupFix "missing_error_handling").isSome = true ∧
    ¬(fixMissingErrorHandling
        (fixMissingErrorHandling c5ehStr.data c5ehIssue) c5ehIssue
      = fixMissingErrorHandling c5ehStr.data c5ehIssue) ∧
    (lookupFix "missing_documentation").isSome = true ∧
    ¬(fixMissingDocumentation
        (fixMissingDocumentation c5defStr.data c5docIssue) c5docIssue
      = fixMissingDocumentation c5defStr.data c5docIssue) ∧
    (lookupFix "missing_section").isSome = true ∧
    ¬(fixMissingSection (fixMissingSection ("x".data) c5sectionIssue) c5sectionIssue
      = fixMissingSection ("x".data) c5sectionIssue) ∧
    (lookupFix "missing_test_type").isSome = true ∧
    ¬(fixMissingTestType (fixMissingTestType ("x".data) c5testIssue) c5testIssue
      = fixMissingTestType ("x".data) c5testIssue) := by decide

/-! ## Claims C2 and C8 -/

/-- Deleting a key leaves no binding for it. -/
theorem lookupEraseKey {α : Type} (l : List (String × α)) (k : String) :
    lookupKey (eraseKey l k) k = none := by
  induction l with
  | nil => rfl
  | cons p t ih =>
      by_cases h : p.1 = k
      · have hstep : eraseKey (p :: t) k = eraseKey t k := by
          simp [eraseKey, h]
        rw [hstep]
        exact ih
      · have hstep : eraseKey (p :: t) k = p :: eraseKey t k := by
          simp [eraseKey, h]
        rw [hstep]
        have hb : (p.1 == k) = false := beq_eq_false_iff_ne.mpr h
        have hfind : lookupKey (p :: eraseKey t k) k = lookupKey (eraseKey t k) k := by
          simp [lookupKey, List.find?, hb]
        rw [hfind]
        exact ih

/-- C2.  The metric step of every review pass raises
`NameError: work_item` (the name is unbound in
`_calculate_documentation_completeness`), so the orchestrator's handler
fires and the item ends in status `error` for every work item and every
starting state — never in a score-based outcome. -/
theorem c2_metric_step_raises_and_item_errors
    (af : Bool) (st : AgentState) (wi : WorkItem) :
    reviewWorkItemEnginePy wi = Except.error (PyErr.nameError "work_item") ∧
    (runReview enginePy af st wi).caught = true ∧
    (runReview enginePy af st wi).item.status = "error" ∧
    ¬((runReview enginePy af st wi).item.status = "approved") ∧
    ¬((runReview enginePy af st wi).item.status = "needs_revision") := by
  refine ⟨rfl, rfl, rfl, ?_, ?_⟩ <;>
  · intro hcontra
    rw [show (runReview enginePy af st wi).item.status = "error" from rfl] at hcontra
    exact absurd hcontra (by decide)

/-- C8.  When the unhandled exception fires during processing (it always
does, at step 1), the item's status is set to `error`, the item is
removed from the active-review set, and the dashboard counters and agent
performance records are exactly as before the item was processed. -/
theorem c8_error_removes_active_and_preserves_aggregates
    (af : Bool) (st : AgentState) (wi : WorkItem) :
    (runReview enginePy af st wi).caught = true ∧
    (runReview enginePy af st wi).item.status = "error" ∧
    lookupKey (runReview enginePy af st wi).state.active_reviews wi.id = none ∧
    (runReview enginePy af st wi).state.dashboard = st.dashboard ∧
    (runReview enginePy af st wi).state.agent_performance = st.agent_performance := by
  refine ⟨rfl, rfl, ?_, rfl, rfl⟩
  have h : (runReview enginePy af st wi).state.active_reviews
      = eraseKey (upsertKey st.active_reviews wi.id wi) wi.id := rfl
  rw [h]
  exact lookupEraseKey _ _

/-! ## Claims C3 and C4 -/

/-- C3, counterexample.  `_send_for_revision` on an item one short of its
limit raises `revision_count` to `max_revisions = 3` and the status stays
`needs_revision` — no `escalated` status is ever assigned
(`_escalate_to_ceo` does not touch the item) — and a further submission
of an item already at the limit pushes `revision_count` to 4, above
`max_revisions`. -/
theorem c3_limit_reached_but_status_stays_needs_revision :
    (sendForRevision c3state c3itemA).2.revision_count = 3 ∧
    c3itemA.max_revisions = 3 ∧
    (sendForRevision c3state c3itemA).2.status = "needs_revision" ∧
    ¬((sendForRevision c3state c3itemA).2.status = "escalated") ∧
    (sendForRevision c3state c3itemB).2.revision_count = 4 ∧
    c3itemB.max_revisions = 3 := by decide

/-- C3, amended: every revision-handling submission increments
`revision_count` (past `max_revisions` included) and leaves the status
`needs_revision`; reaching or exceeding the limit triggers the
escalation report but no status change. -/
theorem c3_amended_increment_and_escalation_not_status
    (st : AgentState) (wi : WorkItem) :
    (sendForRevision st wi).2.status = "needs_revision" ∧
    (sendForRevision st wi).2.revision_count = wi.revision_count + 1 ∧
    (sendForRevision st wi).1.escalations.length =
      st.escalations.length +
        (if wi.max_revisions ≤ wi.revision_count + 1 then 1 else 0) := by
  simp only [sendForRevision, escalateToCEO]
  split_ifs with h <;> simp

/-- C4, counterexample.  On the submission that reaches the limit,
exactly one escalation report is emitted AND one revision notice is
delivered — the notification channel does not stay silent as claimed. -/
theorem c4_escalating_submission_also_notifies :
    (sendForRevision c4state c4item).1.escalations.length = 1 ∧
    (sendForRevision c4state c4item).1.notifications.length = 1 ∧
    ¬((sendForRevision c4state c4item).1.notifications.length = 0) := by decide

/-- C4, amended: every revision-handling submission delivers exactly one
revision notice to the responsible agent; the submission whose increment
reaches `max_revisions` emits exactly one escalation report in addition
to — not instead of — that notice, and earlier submissions emit none. -/
theorem c4_amended_notice_always_escalation_at_limit
    (st : AgentState) (wi : WorkItem) :
    (sendForRevision st wi).1.notifications =
      st.notifications ++ [(wi.agent_name, (sendForRevision st wi).2)] ∧
    (sendForRevision st wi).1.escalations =
      (if wi.max_revisions ≤ wi.revision_count + 1 then
        st.escalations ++ [(sendForRevision st wi).2]
       else st.escalations) := by
  simp only [sendForRevision, escalateToCEO]
  split_ifs with h <;> simp

/-! ## Claim C9 -/

/-- Invariant of serially folding `updateAgentStats`: the running mean
times the review count equals the accumulated sum of scores. -/
theorem foldStatsInvariant (l : List (Rat × Bool)) :
    ∀ s : AgentStats,
      (l.foldl (fun a p => updateAgentStats a p.1 p.2) s).total_reviews
        = s.total_reviews + l.length ∧
      (l.foldl (fun a p => updateAgentStats a p.1 p.2) s).avg_quality_score *
          ((s.total_reviews + l.length : Nat) : Rat)
        = s.avg_quality_score * ((s.total_reviews : Nat) : Rat) +
            (l.map Prod.fst).sum := by
  induction l with
  | nil => intro s; simp
  | cons p t ih =>
      intro s
      have hne : ((s.total_reviews + 1 : Nat) : Rat) ≠ 0 := by
        push_cast
        positivity
      have hstepTotal : (updateAgentStats s p.1 p.2).total_reviews
          = s.total_reviews + 1 := rfl
      have hstepAvg : (updateAgentStats s p.1 p.2).avg_quality_score *
          ((s.total_reviews + 1 : Nat) : Rat)
          = s.avg_quality_score * ((s.total_reviews : Nat) : Rat) + p.1 := by
        show ((s.avg_quality_score * (((s.total_reviews + 1 : Nat) : Rat) - 1) + p.1) /
            ((s.total_reviews + 1 : Nat) : Rat)) * ((s.total_reviews + 1 : Nat) : Rat)
          = s.avg_quality_score * ((s.total_reviews : Nat) : Rat) + p.1
        rw [div_mul_cancel₀ _ hne]
        push_cast
        ring
      obtain ⟨ih1, ih2⟩ := ih (updateAgentStats s p.1 p.2)
      rw [hstepTotal] at ih1 ih2
      constructor
      · rw [List.foldl_cons, ih1, List.length_cons]
        omega
      · rw [List.foldl_cons]
        have hcast : ((s.total_reviews + (p :: t).length : Nat) : Rat)
            = ((s.total_reviews + 1 + t.length : Nat) : Rat) := by
          rw [List.length_cons]
          push_cast
          ring
        rw [hcast, ih2, hstepAvg]
        simp
        ring

/-- C9.  The implementation's running-mean update
`(old * (total - 1) + score) / total` agrees with the spec's incremental
form `old + (score - old) / total`; folding `_update_agent_performance`'s
update serially over an agent's reviews leaves the arithmetic mean of all
overall scores; and the scores 0.9, 0.5, 0.7 end at exactly 0.7. -/
theorem c9_running_mean_equals_arithmetic_mean :
    (∀ (avg score : Rat) (n : Nat), 1 ≤ n →
        (avg * ((n : Rat) - 1) + score) / (n : Rat)
          = avg + (score - avg) / (n : Rat)) ∧
    (∀ l : List (Rat × Bool), l ≠ [] →
        (l.foldl (fun a p => updateAgentStats a p.1 p.2)
            freshAgentStats).avg_quality_score
          = (l.map Prod.fst).sum / (l.length : Rat)) ∧
    (([(9/10, false), (5/10, false), (7/10, true)] :
        List (Rat × Bool)).foldl (fun a p => updateAgentStats a p.1 p.2)
        freshAgentStats).avg_quality_score = 7/10 := by
  have hfold : ∀ l : List (Rat × Bool), l ≠ [] →
      (l.foldl (fun a p => updateAgentStats a p.1 p.2)
          freshAgentStats).avg_quality_score
        = (l.map Prod.fst).sum / (l.length : Rat) := by
    intro l hl
    have h := (foldStatsInvariant l freshAgentStats).2
    have hlen : (l.length : Rat) ≠ 0 := by
      have hp : 0 < l.length := List.length_pos.mpr hl
      exact_mod_cast Nat.pos_iff_ne_zero.mp hp
    rw [show freshAgentStats.total_reviews = 0 from rfl,
        show freshAgentStats.avg_quality_score = 0 from rfl] at h
    simp only [Nat.zero_add, zero_mul, zero_add, Nat.cast_zero] at h
    rw [eq_div_iff hlen]
    exact h
  refine ⟨?_, hfold, ?_⟩
  · intro avg score n hn
    have hne : (n : Rat) ≠ 0 := by
      exact_mod_cast Nat.pos_iff_ne_zero.mp hn
    field_simp
    ring
  · have h3 := hfold [(9/10, false), (5/10, false), (7/10, true)] (by simp)
    rw [h3]
    norm_num

/-! ## Claim C10 -/

/-- Gate lemma on the try-body: whenever `reviewBody` returns normally,
auto-fix was attempted only in the enabled `needs_improvement` branch,
an `unacceptable` first pass never attempted it, and at most two engine
passes ran. -/
theorem reviewBodyGate
    (engine : WorkItem → Except PyErr (QualityStandard × List QualityIssue × WorkItem))
    (af : Bool) (stA : AgentState) (wi : WorkItem)
    (res : AgentState × WorkItem × QualityStandard × Bool × Nat)
    (h : reviewBody engine af stA wi = Except.ok res) :
    (res.2.2.2.1 = true →
      res.2.2.1 = QualityStandard.needs_improvement ∧ af = true) ∧
    (res.2.2.1 = QualityStandard.unacceptable → res.2.2.2.1 = false) ∧
    res.2.2.2.2 ≤ 2 := by
  simp only [reviewBody] at h
  split at h
  · cases h
  · split_ifs at h <;>
      (try (split at h)) <;>
      (try (exact Except.noConfusion h)) <;>
      (injection h with h) <;> (subst h) <;>
      (rename_i heqb) <;>
      (try (split at heqb <;> (try split_ifs at heqb))) <;>
      (first
        | (exact Except.noConfusion heqb)
        | ((injection heqb with heqb); (subst heqb); simp_all))

/-- C10.  For the orchestrator `_review_work_item` over any engine (the
engine is its injected collaborator `self.quality_engine`):
`_attempt_auto_fixes` is invoked only when the first pass classified
`needs_improvement` and auto-fix is enabled; a first pass classified
`unacceptable` goes to revision handling with no auto-fix; and at most
one re-review follows (never more than two engine passes).  With the
engine as written no pass returns a classification at all (the metric
step raises, see the C2 theorem), so auto-fix is never invoked. -/
theorem c10_autofix_gated_on_needs_improvement
    (engine : WorkItem → Except PyErr (QualityStandard × List QualityIssue × WorkItem))
    (af : Bool) (st : AgentState) (wi : WorkItem) :
    ((runReview engine af st wi).autoFixAttempted = true →
      (runReview engine af st wi).firstStandard
          = some QualityStandard.needs_improvement ∧ af = true) ∧
    ((runReview engine af st wi).firstStandard
        = some QualityStandard.unacceptable →
      (runReview engine af st wi).autoFixAttempted = false) ∧
    (runReview engine af st wi).reviewPasses ≤ 2 := by
  simp only [runReview]
  rcases hb : reviewBody engine af
      { st with active_reviews := upsertKey st.active_reviews wi.id wi } wi
    with e | res
  · obtain ⟨e1, stX, wiX⟩ := e
    simp [hb]
  · obtain ⟨st1, wi1, std1, att, passes⟩ := res
    have hg := reviewBodyGate engine af
      { st with active_reviews := upsertKey st.active_reviews wi.id wi } wi
      (st1, wi1, std1, att, passes) hb
    simp only [hb]
    simpa using hg

/-- C10, witness: a stub engine classifying `unacceptable` exercises the
gate — the first pass is `unacceptable` and no auto-fix is attempted. -/
theorem c10_unacceptable_gate_witness :
    (runReview constUnacceptableEngine true c10state c10item).firstStandard
        = some QualityStandard.unacceptable ∧
    (runReview constUnacceptableEngine true c10state c10item).autoFixAttempted
        = false :=
  ⟨by decide,
   (c10_autofix_gated_on_needs_improvement constUnacceptableEngine true
      c10state c10item).2.1 (by decide)⟩
